import Mathlib

/-!
Verification of `openedx/core/lib/edx_api_utils.py`: a shallow embedding of
`get_edx_api_data` and `_traverse_pagination`, together with proofs of the
behavioural properties claimed for them.

Modelling conventions:
* JSON collection items have an abstract type `α`; the value of a `next`
  pagination link has an abstract type `β`; the authenticated user has an
  abstract type `υ`.
* A DRF paginated response is a mapping with optional fields `results` and
  `next`; it is modelled by `Page`.  Values flowing through the function
  (cache contents, responses, the `no_data` sentinel) are modelled by
  `ApiData`: either a JSON list or a JSON object.
* Query strings are association lists `String × Nat` (the only value the code
  itself ever writes is the integer page counter); `qsSet` has Python dict
  assignment semantics (replace in place, or append when absent).
* Exceptions are explicit `Except Exc` results; collaborators (cache store,
  ORM lookup, token builder, REST client factory, HTTP endpoints) are
  functions that may return errors.  The bare `except:` handlers of the
  source catch every error raised inside them — but the cache calls
  (`cache.get`, `cache.set`) sit outside both handlers, so their errors
  propagate to the caller: `FetchOut.result` is an `Except` whose error case
  is an exception reaching the caller.
* Effects visible to the outside (logging, cache reads/writes, HTTP requests)
  are recorded in an explicit `Event` trace.  In-place mutation of the
  caller's query-string dict is modelled by returning the final state of that
  dict (`FetchOut.callerQs`).
* The unbounded `while next_page:` loop is modelled with explicit fuel;
  running out of fuel (result `none`) models divergence.
-/

/-- A DRF-style paginated response: a mapping with the two fields the code
reads, `results` (a list, when present) and `next` (a pagination link, when
present; `none` models both an absent key and JSON `null`). -/
structure Page (α β : Type) where
  results : Option (List α)
  next : Option β
  deriving DecidableEq, Repr

/-- A Python value as it flows through the function: a JSON list (e.g. the
accumulated `results`, or the `[]` sentinel) or a JSON object (a single
resource response, or the `{}` sentinel, modelled as the empty `Page`). -/
inductive ApiData (α β : Type) where
  | items : List α → ApiData α β
  | obj : Page α β → ApiData α β
  deriving DecidableEq, Repr

/-- Exceptions.  `doesNotExist` models `Client.DoesNotExist`,
`improperlyConfigured` models `django.core.exceptions.ImproperlyConfigured`,
`typeError` models the `TypeError` of an ill-typed `+=`, `attributeError`
models `getattr` failing, and `err` is an arbitrary collaborator exception. -/
inductive Exc where
  | doesNotExist
  | improperlyConfigured : String → Exc
  | typeError
  | attributeError
  | err : Nat → Exc
  deriving DecidableEq, Repr

/-- Query-string dictionaries: association lists from parameter name to
(numeric) value. -/
abbrev QS := List (String × Nat)

/-- Python dict assignment `qs[k] = v`: replace the value in place when the
key is present, append the binding otherwise (dicts are duplicate-free, so
updating the first occurrence is dict semantics). -/
def qsSet : QS → String → Nat → QS
  | [], k, v => [(k, v)]
  | p :: rest, k, v =>
    if p.1 == k then (k, v) :: rest else p :: qsSet rest k v

/-- Python dict lookup `qs.get(k)`. -/
def qsGet (qs : QS) (k : String) : Option Nat :=
  (qs.find? (fun p => p.1 == k)).map (fun p => p.2)

/-- Python truthiness of the values this code branches on: `None`, `''`,
`[]` and `{}` are falsy. -/
def dataTruthy {α β : Type} : ApiData α β → Bool
  | .items xs => !xs.isEmpty
  | .obj p => p.results.isSome || p.next.isSome

/-- Truthiness of an optional string (`cache_key`): `None` and `''` are
falsy. -/
def strTruthy : Option String → Bool
  | none => false
  | some s => s ≠ ""

/-- Truthiness of an optional query-string dict: `None` and `{}` are falsy. -/
def qsTruthy : Option QS → Bool
  | none => false
  | some l => !l.isEmpty

/-- `no_data = [] if many else {}`. -/
def noData (α β : Type) (many : Bool) : ApiData α β :=
  if many then .items [] else .obj ⟨none, none⟩

/-- `response.get('results', no_data)`. -/
def pageResults {α β : Type} (p : Page α β) (no_data : ApiData α β) : ApiData α β :=
  match p.results with
  | some xs => .items xs
  | none => no_data

/-- Python `results += more`: list concatenation when both sides are lists,
a `TypeError` otherwise. -/
def pyAdd {α β : Type} : ApiData α β → ApiData α β → Except Exc (ApiData α β)
  | .items xs, .items ys => .ok (.items (xs ++ ys))
  | _, _ => .error .typeError

/-- The record returned by `Client.objects.get(name=client_name)`. -/
structure OAuthClient where
  client_id : String
  client_secret : String
  deriving DecidableEq, Repr

/-- An endpoint attribute of the REST client: `endpoint(resource_id).get(**qs)`
is `call`, and `endpoint.get(**qs)` (used by the pagination loop) is `get`. -/
structure EndpointObj (α β : Type) where
  call : Option String → QS → Except Exc (Page α β)
  get : QS → Except Exc (Page α β)

/-- The REST API client: `getattr(api, resource)` is `endpoints resource`,
`none` modelling a missing attribute. -/
structure ApiClient (α β : Type) where
  endpoints : String → Option (EndpointObj α β)

/-- The `ConfigurationModel` fields the code reads. -/
structure ApiConfig where
  enabled : Bool
  API_NAME : String
  OAUTH2_CLIENT_NAME : String
  internal_api_url : String
  cache_ttl : Nat
  deriving DecidableEq, Repr

/-- The external collaborators: the cache store, the ORM lookup of the OAuth2
client record, the JWT builder, the REST client factory, and the
`OAUTH_ID_TOKEN_EXPIRATION` setting.  `cacheGet` returns `.ok none` on a
cache miss (`cache.get` returning `None`) and `.error` when the backend
raises; `cacheSet` may likewise raise. -/
structure Collab (υ α β : Type) where
  cacheGet : String → Except Exc (Option (ApiData α β))
  cacheSet : String → ApiData α β → Nat → Except Exc Unit
  clientGet : String → Except Exc OAuthClient
  buildToken : υ → String → List String → Nat → String → Except Exc String
  mkRestClient : String → String → Except Exc (ApiClient α β)
  oauthTokenExpiration : Nat

/-- Externally observable effects, in program order: log lines, cache reads
and writes, and HTTP requests (each recording the query string sent). -/
inductive Event (α β : Type) where
  | logWarning : String → Event α β
  | logException : String → Event α β
  | cacheGetEv : String → Event α β
  | cacheSetEv : String → ApiData α β → Nat → Event α β
  | request : QS → Event α β
  deriving DecidableEq, Repr

/-- Is an event an HTTP request? -/
def Event.isRequest {α β : Type} : Event α β → Bool
  | .request _ => true
  | _ => false

/-- Is an event a cache access (read or write)? -/
def Event.isCacheAccess {α β : Type} : Event α β → Bool
  | .cacheGetEv _ => true
  | .cacheSetEv _ _ _ => true
  | _ => false

/-- What `get_edx_api_data` leaves behind: the outcome — a returned value,
or an exception that propagated to the caller (only the cache calls can
produce one, sitting outside both bare-except handlers) — the trace of
observable effects, and the final state of the caller's query-string dict
(which the code may have mutated in place). -/
structure FetchOut (α β : Type) where
  result : Except Exc (ApiData α β)
  events : List (Event α β)
  callerQs : Option QS
  deriving Repr

/-- `'{}.{}'.format(cache_key, resource_id) if resource_id is not None else
cache_key`. -/
def derivedKey (cache_key : String) (resource_id : Option String) : String :=
  match resource_id with
  | some rid => cache_key ++ "." ++ rid
  | none => cache_key

/-- The cache key actually used: the derived key when `cache_key` is truthy,
`none` when caching is disabled for this call. -/
def effCacheKey (cache_key : Option String) (resource_id : Option String) :
    Option String :=
  if strTruthy cache_key then some (derivedKey (cache_key.getD "") resource_id)
  else none

/-- The event trace of the cache read: one `cacheGetEv` when a key is used. -/
def cacheEvsOf {α β : Type} (ck? : Option String) : List (Event α β) :=
  match ck? with
  | some k => [.cacheGetEv k]
  | none => []

/-- The event trace of the cache write: one `cacheSetEv` when a key is used. -/
def setEvsOf {α β : Type} (ck? : Option String) (results : ApiData α β) (ttl : Nat) :
    List (Event α β) :=
  match ck? with
  | some k => [.cacheSetEv k results ttl]
  | none => []

/-- `querystring = querystring if querystring else {}`: the dict the request
code actually works on. -/
def effQS (querystring : Option QS) : QS :=
  match querystring with
  | some l => if l.isEmpty then [] else l
  | none => []

/-- The cache read: `cached = cache.get(cache_key)` followed by
`if cached:`.  `cache.get` is called outside any `try:` block, so a raising
backend propagates (`.error`); `.ok (some v)` is a truthy hit, `.ok none` a
miss or a falsy cached value. -/
def cacheLookup {υ α β : Type} (C : Collab υ α β)
    (cache_key resource_id : Option String) : Except Exc (Option (ApiData α β)) :=
  match effCacheKey cache_key resource_id with
  | some k =>
    match C.cacheGet k with
    | .error e => .error e
    | .ok (some v) => if dataTruthy v then .ok (some v) else .ok none
    | .ok none => .ok none
  | none => .ok none

/-- The trailing `if cache_key: cache.set(cache_key, results,
api_config.cache_ttl)`: also outside any `try:` block, so an error
propagates to the caller. -/
def cacheWrite {υ α β : Type} (C : Collab υ α β) (ck? : Option String)
    (results : ApiData α β) (ttl : Nat) : Except Exc Unit :=
  match ck? with
  | some k => C.cacheSet k results ttl
  | none => .ok ()

/-- The first `try:` block: build the API client when none was supplied.
`Client.objects.get` raising `DoesNotExist` is turned into
`ImproperlyConfigured`; any error from the lookup, the token build or the
client constructor propagates to the caller of this function (where the bare
`except:` catches it). -/
def initClient {υ α β : Type} (cfg : ApiConfig) (u : υ) (api : Option (ApiClient α β))
    (C : Collab υ α β) : Except Exc (ApiClient α β) :=
  match api with
  | some a => .ok a
  | none =>
    let client_name := cfg.OAUTH2_CLIENT_NAME
    match C.clientGet client_name with
    | .error Exc.doesNotExist =>
      .error (.improperlyConfigured
        ("OAuth2 Client with name [" ++ client_name ++ "] does not exist."))
    | .error e => .error e
    | .ok client =>
      match C.buildToken u client.client_secret ["email", "profile"]
          C.oauthTokenExpiration client.client_id with
      | .error e => .error e
      | .ok jwt => C.mkRestClient cfg.internal_api_url jwt

/-- The `while next_page:` loop of `_traverse_pagination`, with fuel.
Arguments mirror the loop state: accumulated `results`, the `page` counter,
`next_page`, the (mutated) query string, and the list of query strings of the
requests issued so far.  Returns `none` when the fuel runs out (divergence);
otherwise the loop's outcome (`results` or the uncaught exception), the final
query string, and the request trace. -/
def traverseLoop {α β : Type} (epGet : QS → Except Exc (Page α β)) (no_data : ApiData α β) :
    Nat → ApiData α β → Nat → Option β → QS → List QS →
    Option (Except Exc (ApiData α β) × QS × List QS)
  | _, results, _, none, qs, reqs => some (.ok results, qs, reqs)
  | 0, _, _, some _, _, _ => none
  | fuel + 1, results, page, some _, qs, reqs =>
    let page' := page + 1
    let qs' := qsSet qs "page" page'
    match epGet qs' with
    | .error e => some (.error e, qs', reqs ++ [qs'])
    | .ok resp =>
      match pyAdd results (pageResults resp no_data) with
      | .error e => some (.error e, qs', reqs ++ [qs'])
      | .ok results' =>
        traverseLoop epGet no_data fuel results' page' resp.next qs' (reqs ++ [qs'])

/-- `_traverse_pagination(response, endpoint, querystring, no_data)`:
`results = response.get('results', no_data)`, `page = 1`,
`next_page = response.get('next')`, then the while loop. -/
def traversePagination {α β : Type} (epGet : QS → Except Exc (Page α β))
    (response : Page α β) (querystring : QS) (no_data : ApiData α β) (fuel : Nat) :
    Option (Except Exc (ApiData α β) × QS × List QS) :=
  traverseLoop epGet no_data fuel (pageResults response no_data) 1 response.next
    querystring []

/-- The second `try:` block: resolve the endpoint by name, issue the first
request, and either take the single response raw (`resource_id` given) or
traverse the pagination.  Returns the outcome, the final query string, and
the query strings of all requests issued. -/
def requestData {α β : Type} (api : ApiClient α β) (resource : String)
    (resource_id : Option String) (querystring : QS) (no_data : ApiData α β)
    (fuel : Nat) : Option (Except Exc (ApiData α β) × QS × List QS) :=
  match api.endpoints resource with
  | none => some (.error .attributeError, querystring, [])
  | some ep =>
    match ep.call resource_id querystring with
    | .error e => some (.error e, querystring, [querystring])
    | .ok response =>
      match resource_id with
      | some _ => some (.ok (.obj response), querystring, [querystring])
      | none =>
        (traversePagination ep.get response querystring no_data fuel).map
          (fun r => (r.1, r.2.1, querystring :: r.2.2))

/-- The caller-visible final state of the query-string dict: when the caller
supplied a truthy dict the code works on (and mutates) that very object, so
the caller sees the final state; otherwise the code works on a fresh `{}` and
the caller's argument is untouched. -/
def finalCallerQs (querystring : Option QS) (final : QS) : Option QS :=
  if qsTruthy querystring then some final else querystring

/-- `get_edx_api_data(api_config, user, resource, api, resource_id,
querystring, cache_key, many)`, over explicit collaborators and fuel.
Returns `none` when the pagination loop diverges; otherwise the outcome
(a value, or a cache-store exception that propagated), the event trace, and
the final state of the caller's query-string dict. -/
def get_edx_api_data {υ α β : Type} (cfg : ApiConfig) (u : υ) (resource : String)
    (api : Option (ApiClient α β)) (resource_id : Option String)
    (querystring : Option QS) (cache_key : Option String) (many : Bool)
    (C : Collab υ α β) (fuel : Nat) : Option (FetchOut α β) :=
  let no_data := noData α β many
  if cfg.enabled = false then
    some ⟨.ok no_data, [.logWarning (cfg.API_NAME ++ " configuration is disabled.")],
      querystring⟩
  else
    let ck? := effCacheKey cache_key resource_id
    match cacheLookup C cache_key resource_id with
    | .error e => some ⟨.error e, cacheEvsOf ck?, querystring⟩
    | .ok (some cached) => some ⟨.ok cached, cacheEvsOf ck?, querystring⟩
    | .ok none =>
      match initClient cfg u api C with
      | .error _ =>
        some ⟨.ok no_data,
          cacheEvsOf ck? ++ [.logException ("Failed to initialize the " ++ cfg.API_NAME
            ++ " API client.")],
          querystring⟩
      | .ok apiC =>
        match requestData apiC resource resource_id (effQS querystring) no_data fuel with
        | none => none
        | some (.error _, qsF, reqs) =>
          some ⟨.ok no_data,
            cacheEvsOf ck? ++ reqs.map .request
              ++ [.logException ("Failed to retrieve data from the " ++ cfg.API_NAME
                ++ " API.")],
            finalCallerQs querystring qsF⟩
        | some (.ok results, qsF, reqs) =>
          match cacheWrite C ck? results cfg.cache_ttl with
          | .error e =>
            some ⟨.error e,
              cacheEvsOf ck? ++ reqs.map .request ++ setEvsOf ck? results cfg.cache_ttl,
              finalCallerQs querystring qsF⟩
          | .ok _ =>
            some ⟨.ok results,
              cacheEvsOf ck? ++ reqs.map .request ++ setEvsOf ck? results cfg.cache_ttl,
              finalCallerQs querystring qsF⟩

/-! ### Scenario infrastructure: finite page chains served by an endpoint -/

/-- The contribution of a page to the accumulated results: its `results`
field, or `[]` when the field is absent (matching `no_data = []`). -/
def pageRes {α β : Type} (p : Page α β) : List α :=
  p.results.getD []

/-- A chain of pages is well formed when every page except the last carries a
truthy `next` link and the last page's `next` is absent/null. -/
def chainGood {α β : Type} (ps : List (Page α β)) : Prop :=
  ∀ i, i < ps.length →
    ((ps.getD i ⟨none, none⟩).next.isSome ↔ i + 1 < ps.length)

/-- A paginated endpoint serving the chain `ps`: the `page` query parameter
selects the page (1-based); anything else errors. -/
def epOf {α β : Type} (ps : List (Page α β)) : QS → Except Exc (Page α β) :=
  fun qs =>
    match qsGet qs "page" with
    | some k =>
      if h : k - 1 < ps.length then .ok (ps.get ⟨k - 1, h⟩) else .error (.err 0)
    | none => .error (.err 0)

/-- The endpoint object for the chain `ps`: the initial request
(`endpoint(resource_id).get(**qs)`) returns the first page; the follow-up
requests of the pagination loop (`endpoint.get(**qs)`) are served by
`epOf ps`. -/
def endpointOf {α β : Type} (ps : List (Page α β)) : EndpointObj α β :=
  { call := fun _ _ =>
      match ps with
      | [] => .error (.err 0)
      | p :: _ => .ok p
    get := epOf ps }

/-- A REST client exposing exactly one resource, served by `endpointOf ps`. -/
def clientOf {α β : Type} (resource : String) (ps : List (Page α β)) : ApiClient α β :=
  ⟨fun r => if r = resource then some (endpointOf ps) else none⟩

/-- An endpoint whose every response carries a truthy `next` link: a `next`
chain that never terminates. -/
def loopEp {α β : Type} (xs : List α) (b : β) : QS → Except Exc (Page α β) :=
  fun _ => .ok ⟨some xs, some b⟩

/-- The `page` query parameter of each HTTP request in an event trace, in
order. -/
def requestPages {α β : Type} (evs : List (Event α β)) : List (Option Nat) :=
  evs.filterMap (fun e =>
    match e with
    | .request qs => some (qsGet qs "page")
    | _ => none)

/-! ### Basic lemmas about the query-string dictionary -/

theorem qsGet_qsSet_self (qs : QS) (k : String) (v : Nat) :
    qsGet (qsSet qs k v) k = some v := by
  induction qs with
  | nil => simp [qsSet, qsGet, List.find?]
  | cons p rest ih =>
    cases h : (p.1 == k) with
    | true => simp [qsSet, h, qsGet, List.find?]
    | false =>
      simp only [qsSet, h, Bool.false_eq_true, if_false]
      unfold qsGet at ih ⊢
      rw [List.find?_cons_of_neg]
      · exact ih
      · simp [h]

theorem qsSet_qsSet_self (qs : QS) (k : String) (v w : Nat) :
    qsSet (qsSet qs k v) k w = qsSet qs k w := by
  induction qs with
  | nil => simp [qsSet]
  | cons p rest ih =>
    cases h : (p.1 == k) with
    | true => simp [qsSet, h]
    | false => simp [qsSet, h, ih]

theorem pageResults_items {α β : Type} (p : Page α β) :
    pageResults p (ApiData.items []) = .items (pageRes p) := by
  cases h : p.results <;> simp [pageResults, pageRes, h]

theorem pages_getD_eq_get {α β : Type} (ps : List (Page α β)) (i : Nat)
    (h : i < ps.length) :
    ps.getD i ⟨none, none⟩ = ps.get ⟨i, h⟩ := by
  rw [List.getD_eq_getD_get? ps ⟨none, none⟩ i, List.get?_eq_getElem?,
    List.getElem?_eq_getElem h]
  rfl

theorem chainGood_next {α β : Type} {ps : List (Page α β)} (hch : chainGood ps)
    {i : Nat} (h : i < ps.length) :
    (ps.get ⟨i, h⟩).next.isSome ↔ i + 1 < ps.length := by
  have := hch i h
  rw [pages_getD_eq_get ps i h] at this
  exact this

/-- Running the `while next_page:` loop over the chain `ps` from page `k`
(1-based, already fetched): it terminates with the remaining pages' results
appended to the accumulator, the query string left with `page` set to the
last page number (untouched when no iteration ran), and one further request
per remaining page, carrying `page` = `k+1`, …, `ps.length`. -/
theorem traverseLoop_run {α β : Type} (ps : List (Page α β)) (hch : chainGood ps)
    (fuel : Nat) :
    ∀ k : Nat, 1 ≤ k → k ≤ ps.length → ps.length - k ≤ fuel →
    ∀ (hk0 : k - 1 < ps.length) (accl : List α) (qs : QS) (reqs : List QS),
    traverseLoop (epOf ps) (ApiData.items []) fuel (ApiData.items accl) k
        (ps.get ⟨k - 1, hk0⟩).next qs reqs =
      some (.ok (.items (accl ++ ((ps.drop k).map pageRes).flatten)),
        (if k = ps.length then qs else qsSet qs "page" ps.length),
        reqs ++ (List.range (ps.length - k)).map (fun i => qsSet qs "page" (k + 1 + i))) := by
  induction fuel with
  | zero =>
    intro k hk1 hk hf hk0 accl qs reqs
    cases hnext : (ps.get ⟨k - 1, hk0⟩).next with
    | none =>
      have hkeq : k = ps.length := by
        have h2 := chainGood_next hch hk0
        rw [hnext] at h2
        simp at h2
        omega
      simp [traverseLoop, hkeq, List.drop_length]
    | some b =>
      have hklt : k < ps.length := by
        have h2 := chainGood_next hch hk0
        rw [hnext] at h2
        simp at h2
        omega
      exact absurd hf (by omega)
  | succ fuel ih =>
    intro k hk1 hk hf hk0 accl qs reqs
    cases hnext : (ps.get ⟨k - 1, hk0⟩).next with
    | none =>
      have hkeq : k = ps.length := by
        have h2 := chainGood_next hch hk0
        rw [hnext] at h2
        simp at h2
        omega
      simp [traverseLoop, hkeq, List.drop_length]
    | some b =>
      have hklt : k < ps.length := by
        have h2 := chainGood_next hch hk0
        rw [hnext] at h2
        simp at h2
        omega
      have hek : epOf ps (qsSet qs "page" (k + 1)) = .ok (ps.get ⟨k, hklt⟩) := by
        simp [epOf, qsGet_qsSet_self, Nat.add_sub_cancel, hklt]
      have ihk := ih (k + 1) (by omega) (by omega) (by omega)
        (by simpa using hklt) (accl ++ pageRes (ps.get ⟨k, hklt⟩))
        (qsSet qs "page" (k + 1)) (reqs ++ [qsSet qs "page" (k + 1)])
      simp only [Nat.add_sub_cancel] at ihk
      simp only [traverseLoop, hek, pageResults_items, pyAdd]
      rw [ihk]
      refine congrArg some (congrArg₂ Prod.mk ?_ (congrArg₂ Prod.mk ?_ ?_))
      · have hdrop : ps.drop k = ps.get ⟨k, hklt⟩ :: ps.drop (k + 1) := by
          rw [List.drop_eq_getElem_cons hklt]
          rfl
        rw [hdrop]
        simp only [List.map_cons, List.flatten_cons, List.append_assoc]
      · by_cases hkl : k + 1 = ps.length
        · rw [if_pos hkl, if_neg (by omega), ← hkl]
        · rw [if_neg hkl, if_neg (by omega), qsSet_qsSet_self]
      · have hm : ps.length - k = (ps.length - (k + 1)) + 1 := by omega
        rw [hm, List.range_succ_eq_map, List.map_cons, List.map_map,
          List.append_assoc, List.singleton_append]
        congr 1
        congr 1
        apply List.map_congr_left
        intro i _
        simp only [Function.comp, qsSet_qsSet_self]
        congr 1
        omega

/-- `_traverse_pagination` over a well-formed finite chain: it returns the
concatenation of the pages' `results` in page order, leaves `page` set to the
last page number in the query string (untouched for a single page), and
issues one follow-up request per page after the first, with `page` = 2, 3, …,
`ps.length`. -/
theorem traversePagination_run {α β : Type} (ps : List (Page α β)) (hch : chainGood ps)
    (hne : ps ≠ []) (qs : QS) (fuel : Nat) (hf : ps.length - 1 ≤ fuel) :
    traversePagination (epOf ps) (ps.getD 0 ⟨none, none⟩) qs (ApiData.items []) fuel =
      some (.ok (.items ((ps.map pageRes).flatten)),
        (if 1 = ps.length then qs else qsSet qs "page" ps.length),
        (List.range (ps.length - 1)).map (fun i => qsSet qs "page" (2 + i))) := by
  have h0 : 0 < ps.length := List.length_pos.mpr hne
  have hrun := traverseLoop_run ps hch fuel 1 (by omega) (by omega) (by omega)
    (by omega) (pageRes (ps.get ⟨0, by omega⟩)) qs []
  unfold traversePagination
  rw [pages_getD_eq_get ps 0 h0, pageResults_items]
  rw [show (ps.get ⟨1 - 1, by omega⟩) = ps.get ⟨0, h0⟩ from rfl] at hrun
  rw [hrun]
  refine congrArg some (congrArg₂ Prod.mk ?_ (congrArg₂ Prod.mk rfl ?_))
  · have hdrop0 : ps = ps.get ⟨0, h0⟩ :: ps.drop 1 := by
      conv_lhs => rw [← List.drop_zero ps]
      rw [List.drop_eq_getElem_cons h0]
      rfl
    conv_rhs => rw [hdrop0]
    simp [List.map_cons, List.flatten_cons]
  · rw [List.nil_append]

/-- The divergence of the loop on an endpoint whose every response has a
truthy `next`: no amount of fuel makes it return. -/
theorem traverseLoop_loopEp_diverges {α β : Type} (xs : List α) (b : β) :
    ∀ (fuel : Nat) (accl : List α) (page : Nat) (b0 : β) (qs : QS) (reqs : List QS),
    traverseLoop (loopEp xs b) (ApiData.items []) fuel (ApiData.items accl) page
      (some b0) qs reqs = none := by
  intro fuel
  induction fuel with
  | zero => intro accl page b0 qs reqs; rfl
  | succ fuel ih =>
    intro accl page b0 qs reqs
    simp only [traverseLoop, loopEp, pageResults, pyAdd]
    exact ih (accl ++ xs) (page + 1) b (qsSet qs "page" (page + 1))
      (reqs ++ [qsSet qs "page" (page + 1)])

instance chainGoodDecidable {α β : Type} (ps : List (Page α β)) :
    Decidable (chainGood ps) := by
  unfold chainGood
  infer_instance

/-- A concrete three-page chain: `results` of lengths 2, 2, 1, with `next`
chaining and then null. -/
def pages3 : List (Page Nat String) :=
  [⟨some [1, 2], some "p2"⟩, ⟨some [3, 4], some "p3"⟩, ⟨some [5], none⟩]

/-- A full paginated fetch (`resource_id` absent, `many = True`, no cache
key) over the chain `ps`: with the configuration enabled the function
returns the concatenated results, issues the initial request with the
caller's query string followed by one request per further page with
`page` = 2, …, `ps.length`, and leaves the caller's dict with `page` set to
the last page number (untouched when there was a single page). -/
theorem fetch_paginated_run {υ α β : Type} (cfg : ApiConfig) (u : υ) (resource : String)
    (ps : List (Page α β)) (querystring : Option QS)
    (C : Collab υ α β) (fuel : Nat)
    (hen : cfg.enabled = true) (hne : ps ≠ []) (hch : chainGood ps)
    (hf : ps.length - 1 ≤ fuel) :
    get_edx_api_data cfg u resource (some (clientOf resource ps)) none querystring
        none true C fuel =
      some ⟨.ok (.items ((ps.map pageRes).flatten)),
        (effQS querystring
          :: (List.range (ps.length - 1)).map
               (fun i => qsSet (effQS querystring) "page" (2 + i))).map .request,
        finalCallerQs querystring
          (if 1 = ps.length then effQS querystring
           else qsSet (effQS querystring) "page" ps.length)⟩ := by
  have hreq : requestData (clientOf resource ps) resource none (effQS querystring)
      (noData α β true) fuel =
      some (.ok (.items ((ps.map pageRes).flatten)),
        (if 1 = ps.length then effQS querystring
         else qsSet (effQS querystring) "page" ps.length),
        effQS querystring
          :: (List.range (ps.length - 1)).map
               (fun i => qsSet (effQS querystring) "page" (2 + i))) := by
    cases ps with
    | nil => exact absurd rfl hne
    | cons p rest =>
      have htrav := traversePagination_run (p :: rest) hch hne (effQS querystring) fuel hf
      simp only [List.getD_cons_zero] at htrav
      simp [requestData, clientOf, endpointOf, noData, htrav]
  have hinit : initClient cfg u (some (clientOf resource ps)) C
      = .ok (clientOf resource ps) := rfl
  have hmiss : cacheLookup C none none = .ok none := rfl
  unfold get_edx_api_data
  simp [hen, hmiss, hinit, hreq, cacheWrite, effCacheKey, strTruthy, cacheEvsOf,
    setEvsOf]

/-- Requests in an event trace that is a mapped request list. -/
theorem requestPages_map_request {α β : Type} (l : List QS) :
    requestPages (α := α) (β := β) (l.map .request) = l.map (fun qs => qsGet qs "page") := by
  induction l with
  | nil => rfl
  | cons q t ih =>
    simp only [List.map_cons, requestPages, List.filterMap_cons] at ih ⊢
    rw [ih]

theorem filter_isRequest_cacheEvsOf {α β : Type} (x : Option String) :
    (cacheEvsOf (α := α) (β := β) x).filter Event.isRequest = [] := by
  cases x <;> rfl

theorem filter_isRequest_setEvsOf {α β : Type} (x : Option String) (r : ApiData α β)
    (t : Nat) : (setEvsOf x r t).filter Event.isRequest = [] := by
  cases x <;> rfl

theorem filter_isRequest_map_request {α β : Type} (l : List QS) :
    ((l.map .request).filter (Event.isRequest (α := α) (β := β))) = l.map .request := by
  induction l with
  | nil => rfl
  | cons q t ih => simp [List.filter_cons, Event.isRequest, ih]

/-- An enabled configuration used by the concrete scenarios. -/
def cfgOn : ApiConfig :=
  { enabled := true, API_NAME := "catalog", OAUTH2_CLIENT_NAME := "catalog-client",
    internal_api_url := "http://localhost/api", cache_ttl := 300 }

/-- Collaborators with an empty cache and failing auth services; the concrete
scenarios that use it supply a pre-built API client, so the auth services are
never consulted. -/
def noCollab : Collab Unit Nat String :=
  { cacheGet := fun _ => .ok none
    cacheSet := fun _ _ _ => .ok ()
    clientGet := fun _ => .error (.err 0)
    buildToken := fun _ _ _ _ _ => .error (.err 0)
    mkRestClient := fun _ _ => .error (.err 0)
    oauthTokenExpiration := 300 }

/-- C1: for every paginated response whose chain of `next` fields eventually
becomes absent/null, `_traverse_pagination` returns the concatenation, in
page order, of every page's `results` field (the first page's results
followed by those of each successive page fetched while `next` is
present). -/
theorem C1_pagination_concatenates_results {α β : Type} (ps : List (Page α β))
    (hne : ps ≠ []) (hch : chainGood ps) (qs : QS) (fuel : Nat)
    (hf : ps.length - 1 ≤ fuel) :
    (traversePagination (epOf ps) (ps.getD 0 ⟨none, none⟩) qs (ApiData.items []) fuel).map
        (fun r => r.1)
      = some (.ok (.items ((ps.map pageRes).flatten))) := by
  rw [traversePagination_run ps hch hne qs fuel hf]
  rfl

theorem C1_pagination_concatenates_results_witness :
    (traversePagination (epOf pages3) (pages3.getD 0 ⟨none, none⟩) [] (ApiData.items []) 2).map
        (fun r => r.1)
      = some (.ok (.items [1, 2, 3, 4, 5])) :=
  (C1_pagination_concatenates_results pages3 (by decide) (by decide) [] 2 (by decide)).trans
    rfl

/-- C9: the pagination traversal terminates exactly on finite `next` chains:
over a well-formed chain of `n` pages it returns after `n - 1` follow-up
requests, while on an endpoint whose every response carries a truthy `next`
link no amount of fuel lets the loop return — there is no internal bound on
the iteration count. -/
theorem C9_termination_iff_finite_chain :
    (∀ (α β : Type) (ps : List (Page α β)) (qs : QS) (fuel : Nat),
      ps ≠ [] → chainGood ps → ps.length - 1 ≤ fuel →
      ∃ out, traversePagination (epOf ps) (ps.getD 0 ⟨none, none⟩) qs
          (ApiData.items []) fuel = some out ∧ out.2.2.length = ps.length - 1)
    ∧ (∀ (α β : Type) (xs : List α) (b : β) (resp : Page α β) (qs : QS) (fuel : Nat),
      resp.next.isSome = true →
      traversePagination (loopEp xs b) resp qs (ApiData.items []) fuel = none) := by
  constructor
  · intro α β ps qs fuel hne hch hf
    refine ⟨_, traversePagination_run ps hch hne qs fuel hf, ?_⟩
    simp
  · intro α β xs b resp qs fuel hsome
    obtain ⟨b0, hb0⟩ := Option.isSome_iff_exists.mp hsome
    unfold traversePagination
    rw [hb0, pageResults_items]
    exact traverseLoop_loopEp_diverges xs b fuel (pageRes resp) 1 b0 qs []

theorem C9_termination_iff_finite_chain_witness :
    (∃ out, traversePagination (epOf pages3) (pages3.getD 0 ⟨none, none⟩) []
        (ApiData.items []) 2 = some out ∧ out.2.2.length = pages3.length - 1)
    ∧ traversePagination (loopEp [7] "n") ⟨some [7], some "n"⟩ [] (ApiData.items []) 9
      = none :=
  ⟨C9_termination_iff_finite_chain.1 Nat String pages3 [] 2 (by decide) (by decide)
      (by decide),
   C9_termination_iff_finite_chain.2 Nat String [7] "n" ⟨some [7], some "n"⟩ [] 9 rfl⟩

/-- C3 counterexample: in a concrete three-page fetch (pages of 2, 2 and 1
results), the `page` query parameter is absent from the first request and
equals 2 and 3 on the second and third — the parameter values across the
three requests are not 1, 2, 3. -/
theorem C3_counterexample :
    (get_edx_api_data cfgOn () "catalog" (some (clientOf "catalog" pages3)) none
        (some [("q", 7)]) none true noCollab 2).map (fun o => requestPages o.events)
      = some [none, some 2, some 3]
    ∧ (get_edx_api_data cfgOn () "catalog" (some (clientOf "catalog" pages3)) none
        (some [("q", 7)]) none true noCollab 2).map (fun o => requestPages o.events)
      ≠ some [some 1, some 2, some 3] := by
  constructor
  · rfl
  · decide

/-- C3 amended: the page counter starts at 1 and each loop iteration
increments it before writing it into the query parameters and re-issuing the
request; hence, when the caller's query string carries no `page` entry, the
`page` parameter is absent from the first request and takes the values
2, 3, …, `ps.length` on the follow-up requests (2 and 3 for a three-page
fetch). -/
theorem C3_page_parameter_values {υ α β : Type} (cfg : ApiConfig) (u : υ)
    (resource : String) (ps : List (Page α β)) (querystring : Option QS)
    (C : Collab υ α β) (fuel : Nat)
    (hen : cfg.enabled = true) (hne : ps ≠ []) (hch : chainGood ps)
    (hf : ps.length - 1 ≤ fuel)
    (hnp : qsGet (effQS querystring) "page" = none) :
    (get_edx_api_data cfg u resource (some (clientOf resource ps)) none querystring
        none true C fuel).map (fun o => requestPages o.events)
      = some (none :: (List.range (ps.length - 1)).map (fun i => some (2 + i))) := by
  rw [fetch_paginated_run cfg u resource ps querystring C fuel hen hne hch hf]
  simp only [Option.map_some', cacheEvsOf, setEvsOf, effCacheKey, strTruthy,
    Bool.false_eq_true, if_false, List.nil_append, List.append_nil]
  rw [requestPages_map_request]
  simp [List.map_map, Function.comp, hnp, qsGet_qsSet_self]

theorem C3_page_parameter_values_witness :
    (get_edx_api_data cfgOn () "catalog" (some (clientOf "catalog" pages3)) none
        (some [("q", 7)]) none true noCollab 2).map (fun o => requestPages o.events)
      = some (none :: (List.range (pages3.length - 1)).map (fun i => some (2 + i))) :=
  C3_page_parameter_values cfgOn () "catalog" pages3 (some [("q", 7)]) noCollab 2
    rfl (by decide) (by decide) (by decide) rfl

/-- C10: when the caller supplies a non-empty query-string dict and the
paginated fetch follows at least one `next` link, the function writes the
key `page` (holding the last page number) into that very dict, and the
mutation is visible to the caller after the function returns. -/
theorem C10_caller_querystring_mutated {υ α β : Type} (cfg : ApiConfig) (u : υ)
    (resource : String) (ps : List (Page α β)) (l : QS) (C : Collab υ α β) (fuel : Nat)
    (hen : cfg.enabled = true) (hch : chainGood ps)
    (hl : l ≠ []) (h2 : 2 ≤ ps.length) (hf : ps.length - 1 ≤ fuel) :
    (get_edx_api_data cfg u resource (some (clientOf resource ps)) none (some l)
        none true C fuel).map (fun o => o.callerQs)
      = some (some (qsSet l "page" ps.length))
    ∧ qsGet (qsSet l "page" ps.length) "page" = some ps.length := by
  have hne : ps ≠ [] := by
    intro h
    subst h
    simp at h2
  have hle : l.isEmpty = false := by
    cases l with
    | nil => exact absurd rfl hl
    | cons a t => rfl
  constructor
  · rw [fetch_paginated_run cfg u resource ps (some l) C fuel hen hne hch hf]
    have heff : effQS (some l) = l := by simp [effQS, hle]
    simp [finalCallerQs, qsTruthy, hle, heff, show ¬(1 = ps.length) by omega]
  · exact qsGet_qsSet_self l "page" ps.length

theorem C10_caller_querystring_mutated_witness :
    (get_edx_api_data cfgOn () "catalog" (some (clientOf "catalog" pages3)) none
        (some [("q", 7)]) none true noCollab 2).map (fun o => o.callerQs)
      = some (some (qsSet [("q", 7)] "page" pages3.length))
    ∧ qsGet (qsSet [("q", 7)] "page" pages3.length) "page" = some pages3.length :=
  C10_caller_querystring_mutated cfgOn () "catalog" pages3 [("q", 7)] noCollab 2
    rfl (by decide) (by decide) (by decide) (by decide)

/-- C5: while the configuration's enabled flag is false the fetch returns
the empty value (`[]` if `many`, `{}` otherwise) immediately with a logged
warning as its only observable effect — no cache access and no network
call. -/
theorem C5_disabled_returns_empty {υ α β : Type} (cfg : ApiConfig) (u : υ)
    (resource : String) (api : Option (ApiClient α β)) (resource_id : Option String)
    (querystring : Option QS) (cache_key : Option String) (many : Bool)
    (C : Collab υ α β) (fuel : Nat) (hdis : cfg.enabled = false) :
    get_edx_api_data cfg u resource api resource_id querystring cache_key many C fuel
      = some ⟨.ok (noData α β many),
          [.logWarning (cfg.API_NAME ++ " configuration is disabled.")], querystring⟩
    ∧ ([Event.logWarning (α := α) (β := β)
          (cfg.API_NAME ++ " configuration is disabled.")].any Event.isRequest = false
        ∧ [Event.logWarning (α := α) (β := β)
            (cfg.API_NAME ++ " configuration is disabled.")].any Event.isCacheAccess
          = false) := by
  refine ⟨?_, rfl, rfl⟩
  unfold get_edx_api_data
  simp [hdis]

/-- A disabled configuration. -/
def cfgOff : ApiConfig :=
  { enabled := false, API_NAME := "catalog", OAUTH2_CLIENT_NAME := "catalog-client",
    internal_api_url := "http://localhost/api", cache_ttl := 300 }

theorem C5_disabled_returns_empty_witness :
    get_edx_api_data cfgOff () "catalog" none none none (some "ckey") true noCollab 9
      = some ⟨.ok (noData Nat String true),
          [.logWarning (cfgOff.API_NAME ++ " configuration is disabled.")], none⟩
    ∧ ([Event.logWarning (α := Nat) (β := String)
          (cfgOff.API_NAME ++ " configuration is disabled.")].any Event.isRequest = false
        ∧ [Event.logWarning (α := Nat) (β := String)
            (cfgOff.API_NAME ++ " configuration is disabled.")].any Event.isCacheAccess
          = false) :=
  C5_disabled_returns_empty cfgOff () "catalog" none none none (some "ckey") true
    noCollab 9 rfl

/-- Collaborators whose cache holds the empty list under the key `ckey`. -/
def cachedEmptyCollab : Collab Unit Nat String :=
  { noCollab with
      cacheGet := fun k => if k = "ckey" then .ok (some (.items [])) else .ok none }

/-- C4 counterexample: a value — the empty list — exists in the cache under
the derived key `ckey`, yet the fetch does not return it: it issues network
requests and returns the freshly fetched data, because the code tests the
cached value for truthiness rather than presence. -/
theorem C4_counterexample :
    cachedEmptyCollab.cacheGet (derivedKey "ckey" none) = .ok (some (ApiData.items []))
    ∧ (get_edx_api_data cfgOn () "catalog" (some (clientOf "catalog" pages3)) none
        none (some "ckey") true cachedEmptyCollab 2).map
          (fun o => (o.result, o.events.any Event.isRequest))
      = some (.ok (.items [1, 2, 3, 4, 5]), true) := by
  exact ⟨rfl, rfl⟩

/-- C4 amended: when a cache key is provided and a truthy (non-empty) value
exists in the cache under the derived key, the fetch returns that cached
value verbatim and performs no network call and no client construction: the
cache read is the only observable effect. -/
theorem C4_cache_hit_returns_cached {υ α β : Type} (cfg : ApiConfig) (u : υ)
    (resource : String) (api : Option (ApiClient α β)) (resource_id : Option String)
    (querystring : Option QS) (cache_key : Option String) (many : Bool)
    (C : Collab υ α β) (fuel : Nat) (v : ApiData α β)
    (hen : cfg.enabled = true) (hck : strTruthy cache_key = true)
    (hv : C.cacheGet (derivedKey (cache_key.getD "") resource_id) = .ok (some v))
    (htr : dataTruthy v = true) :
    get_edx_api_data cfg u resource api resource_id querystring cache_key many C fuel
      = some ⟨.ok v, [.cacheGetEv (derivedKey (cache_key.getD "") resource_id)],
          querystring⟩ := by
  have hhit : cacheLookup C cache_key resource_id = .ok (some v) := by
    simp [cacheLookup, effCacheKey, hck, hv, htr]
  unfold get_edx_api_data
  simp [hen, hhit, cacheEvsOf, effCacheKey, hck]

/-- Collaborators whose cache holds the one-element list `[5]` under `ckey`. -/
def cachedCollab : Collab Unit Nat String :=
  { noCollab with
      cacheGet := fun k => if k = "ckey" then .ok (some (.items [5])) else .ok none }

theorem C4_cache_hit_returns_cached_witness :
    get_edx_api_data cfgOn () "catalog" none none none (some "ckey") true
        cachedCollab 9
      = some ⟨.ok (.items [5]), [.cacheGetEv (derivedKey "ckey" none)], none⟩ :=
  C4_cache_hit_returns_cached cfgOn () "catalog" none none none (some "ckey") true
    cachedCollab 9 (.items [5]) rfl rfl rfl rfl

/-- Collaborators whose cache read raises. -/
def raisingGetCollab : Collab Unit Nat String :=
  { noCollab with cacheGet := fun _ => .error (.err 7) }

/-- Collaborators whose cache write raises (reads miss cleanly). -/
def raisingSetCollab : Collab Unit Nat String :=
  { noCollab with cacheSet := fun _ _ _ => .error (.err 8) }

/-- C2 counterexample: the claim quantifies over every behaviour of the
collaborators, the cache store included, but `cache.get` and `cache.set` are
called outside both bare-except handlers.  With a provided cache key, a
backend that raises on read makes the fetch raise to the caller, and one
that raises on write turns an otherwise successful fetch into an exception —
in neither case does the caller observe a result or the empty value. -/
theorem C2_counterexample :
    (get_edx_api_data cfgOn () "catalog" none none none (some "ckey") true
        raisingGetCollab 9).map (fun o => o.result)
      = some (.error (.err 7))
    ∧ (get_edx_api_data cfgOn () "catalog" (some (clientOf "catalog" pages3)) none
        none (some "ckey") true raisingSetCollab 2).map (fun o => o.result)
      = some (.error (.err 8)) :=
  ⟨rfl, rfl⟩

/-- C2 amended: exceptions raised while building the client or while calling
the endpoint (pagination included) never reach the caller — the fetch
returns the empty value (`[]` when `many` is true, `{}` otherwise) with a
logged exception; but the two cache-store calls sit outside both handlers,
so an exception from `cache.get` (with a truthy key), or from `cache.set`
after a successful fetch, propagates to the caller. -/
theorem C2_swallows_all_but_cache_errors :
    (∀ (υ α β : Type) (cfg : ApiConfig) (u : υ) (resource : String)
       (api : Option (ApiClient α β)) (resource_id : Option String)
       (querystring : Option QS) (cache_key : Option String) (many : Bool)
       (C : Collab υ α β) (fuel : Nat) (e : Exc),
      cfg.enabled = true → cacheLookup C cache_key resource_id = .ok none →
      initClient cfg u api C = .error e →
      get_edx_api_data cfg u resource api resource_id querystring cache_key many C fuel
        = some ⟨.ok (noData α β many),
            cacheEvsOf (effCacheKey cache_key resource_id)
              ++ [.logException ("Failed to initialize the " ++ cfg.API_NAME
                    ++ " API client.")],
            querystring⟩)
    ∧ (∀ (υ α β : Type) (cfg : ApiConfig) (u : υ) (resource : String)
        (api : Option (ApiClient α β)) (resource_id : Option String)
        (querystring : Option QS) (cache_key : Option String) (many : Bool)
        (C : Collab υ α β) (fuel : Nat) (apiC : ApiClient α β) (e : Exc)
        (qsF : QS) (reqs : List QS),
      cfg.enabled = true → cacheLookup C cache_key resource_id = .ok none →
      initClient cfg u api C = .ok apiC →
      requestData apiC resource resource_id (effQS querystring) (noData α β many) fuel
        = some (.error e, qsF, reqs) →
      get_edx_api_data cfg u resource api resource_id querystring cache_key many C fuel
        = some ⟨.ok (noData α β many),
            cacheEvsOf (effCacheKey cache_key resource_id)
              ++ reqs.map .request
              ++ [.logException ("Failed to retrieve data from the " ++ cfg.API_NAME
                    ++ " API.")],
            finalCallerQs querystring qsF⟩)
    ∧ (∀ (υ α β : Type) (cfg : ApiConfig) (u : υ) (resource : String)
        (api : Option (ApiClient α β)) (resource_id : Option String)
        (querystring : Option QS) (cache_key : Option String) (many : Bool)
        (C : Collab υ α β) (fuel : Nat) (e : Exc),
      cfg.enabled = true → strTruthy cache_key = true →
      C.cacheGet (derivedKey (cache_key.getD "") resource_id) = .error e →
      get_edx_api_data cfg u resource api resource_id querystring cache_key many C fuel
        = some ⟨.error e, cacheEvsOf (effCacheKey cache_key resource_id),
            querystring⟩)
    ∧ (∀ (υ α β : Type) (cfg : ApiConfig) (u : υ) (resource : String)
        (api : Option (ApiClient α β)) (resource_id : Option String)
        (querystring : Option QS) (cache_key : Option String) (many : Bool)
        (C : Collab υ α β) (fuel : Nat) (apiC : ApiClient α β) (e : Exc)
        (results : ApiData α β) (qsF : QS) (reqs : List QS),
      cfg.enabled = true → strTruthy cache_key = true →
      cacheLookup C cache_key resource_id = .ok none →
      initClient cfg u api C = .ok apiC →
      requestData apiC resource resource_id (effQS querystring) (noData α β many) fuel
        = some (.ok results, qsF, reqs) →
      C.cacheSet (derivedKey (cache_key.getD "") resource_id) results cfg.cache_ttl
        = .error e →
      get_edx_api_data cfg u resource api resource_id querystring cache_key many C fuel
        = some ⟨.error e,
            cacheEvsOf (effCacheKey cache_key resource_id)
              ++ reqs.map .request
              ++ setEvsOf (effCacheKey cache_key resource_id) results cfg.cache_ttl,
            finalCallerQs querystring qsF⟩) := by
  refine ⟨?_, ?_, ?_, ?_⟩
  · intro υ α β cfg u resource api resource_id querystring cache_key many C fuel e
      hen hmiss hinit
    unfold get_edx_api_data
    simp [hen, hmiss, hinit]
  · intro υ α β cfg u resource api resource_id querystring cache_key many C fuel apiC e
      qsF reqs hen hmiss hinit hreq
    unfold get_edx_api_data
    simp [hen, hmiss, hinit, hreq]
  · intro υ α β cfg u resource api resource_id querystring cache_key many C fuel e
      hen hck hget
    have hlk : cacheLookup C cache_key resource_id = .error e := by
      simp [cacheLookup, effCacheKey, hck, hget]
    unfold get_edx_api_data
    simp [hen, hlk]
  · intro υ α β cfg u resource api resource_id querystring cache_key many C fuel apiC e
      results qsF reqs hen hck hmiss hinit hreq hset
    have hw : cacheWrite C (effCacheKey cache_key resource_id) results cfg.cache_ttl
        = .error e := by
      simp [cacheWrite, effCacheKey, hck, hset]
    unfold get_edx_api_data
    simp [hen, hmiss, hinit, hreq, hw]

/-- A REST client with no endpoint attributes at all. -/
def badApi : ApiClient Nat String := ⟨fun _ => none⟩

theorem C2_swallows_all_but_cache_errors_witness :
    get_edx_api_data cfgOn () "catalog" none none none none true noCollab 9
      = some ⟨.ok (noData Nat String true),
          cacheEvsOf (effCacheKey none none)
            ++ [.logException ("Failed to initialize the " ++ cfgOn.API_NAME
                  ++ " API client.")],
          none⟩
    ∧ get_edx_api_data cfgOn () "catalog" (some badApi) none none none true noCollab 9
      = some ⟨.ok (noData Nat String true),
          cacheEvsOf (effCacheKey none none)
            ++ ([] : List QS).map .request
            ++ [.logException ("Failed to retrieve data from the " ++ cfgOn.API_NAME
                  ++ " API.")],
          finalCallerQs none (effQS none)⟩
    ∧ get_edx_api_data cfgOn () "catalog" none none none (some "ckey") true
        raisingGetCollab 9
      = some ⟨.error (.err 7), cacheEvsOf (effCacheKey (some "ckey") none), none⟩
    ∧ get_edx_api_data cfgOn () "catalog" (some (clientOf "catalog" pages3)) none
        none (some "ckey") true raisingSetCollab 2
      = some ⟨.error (.err 8),
          cacheEvsOf (effCacheKey (some "ckey") none)
            ++ ([[], [("page", 2)], [("page", 3)]] : List QS).map .request
            ++ setEvsOf (effCacheKey (some "ckey") none) (.items [1, 2, 3, 4, 5])
                 cfgOn.cache_ttl,
          finalCallerQs none [("page", 3)]⟩ :=
  ⟨C2_swallows_all_but_cache_errors.1 Unit Nat String cfgOn () "catalog" none none
      none none true noCollab 9 (.err 0) rfl rfl rfl,
   C2_swallows_all_but_cache_errors.2.1 Unit Nat String cfgOn () "catalog"
      (some badApi) none none none true noCollab 9 badApi .attributeError
      (effQS none) [] rfl rfl rfl rfl,
   C2_swallows_all_but_cache_errors.2.2.1 Unit Nat String cfgOn () "catalog" none
      none none (some "ckey") true raisingGetCollab 9 (.err 7) rfl rfl rfl,
   C2_swallows_all_but_cache_errors.2.2.2 Unit Nat String cfgOn () "catalog"
      (some (clientOf "catalog" pages3)) none none (some "ckey") true
      raisingSetCollab 2 (clientOf "catalog" pages3) (.err 8) (.items [1, 2, 3, 4, 5])
      [("page", 3)] [[], [("page", 2)], [("page", 3)]] rfl rfl rfl rfl rfl rfl⟩

/-- C6: every successful fetch performed with a truthy cache key stores the
final result in the cache under the derived key — `{cache_key}.{resource_id}`
when a resource id is given, `{cache_key}` otherwise — with the
configuration's cache TTL. -/
theorem C6_successful_fetch_stores_result {υ α β : Type} (cfg : ApiConfig) (u : υ)
    (resource : String) (api : Option (ApiClient α β)) (resource_id : Option String)
    (querystring : Option QS) (cache_key : Option String) (many : Bool)
    (C : Collab υ α β) (fuel : Nat) (apiC : ApiClient α β) (results : ApiData α β)
    (qsF : QS) (reqs : List QS)
    (hen : cfg.enabled = true) (hck : strTruthy cache_key = true)
    (hmiss : cacheLookup C cache_key resource_id = .ok none)
    (hinit : initClient cfg u api C = .ok apiC)
    (hreq : requestData apiC resource resource_id (effQS querystring)
      (noData α β many) fuel = some (.ok results, qsF, reqs))
    (hset : C.cacheSet (derivedKey (cache_key.getD "") resource_id) results
      cfg.cache_ttl = .ok ()) :
    ∃ o, get_edx_api_data cfg u resource api resource_id querystring cache_key many
        C fuel = some o
      ∧ o.result = .ok results
      ∧ Event.cacheSetEv (derivedKey (cache_key.getD "") resource_id) results
          cfg.cache_ttl ∈ o.events := by
  have hck' : effCacheKey cache_key resource_id
      = some (derivedKey (cache_key.getD "") resource_id) := by
    simp [effCacheKey, hck]
  have hw : cacheWrite C (effCacheKey cache_key resource_id) results cfg.cache_ttl
      = .ok () := by
    simp [cacheWrite, hck', hset]
  refine ⟨⟨.ok results,
      cacheEvsOf (effCacheKey cache_key resource_id) ++ reqs.map .request
        ++ setEvsOf (effCacheKey cache_key resource_id) results cfg.cache_ttl,
      finalCallerQs querystring qsF⟩, ?_, rfl, ?_⟩
  · unfold get_edx_api_data
    simp [hen, hmiss, hinit, hreq, hw]
  · simp [hck', setEvsOf, List.mem_append]

theorem C6_successful_fetch_stores_result_witness :
    ∃ o, get_edx_api_data cfgOn () "catalog" (some (clientOf "catalog" pages3)) none
        none (some "ckey") true noCollab 2 = some o
      ∧ o.result = .ok (ApiData.items [1, 2, 3, 4, 5])
      ∧ Event.cacheSetEv (derivedKey "ckey" none) (ApiData.items [1, 2, 3, 4, 5])
          cfgOn.cache_ttl ∈ o.events :=
  C6_successful_fetch_stores_result cfgOn () "catalog"
    (some (clientOf "catalog" pages3)) none none (some "ckey") true noCollab 2
    (clientOf "catalog" pages3) (.items [1, 2, 3, 4, 5]) [("page", 3)]
    [[], [("page", 2)], [("page", 3)]] rfl rfl rfl rfl rfl rfl

/-- C8: when the OAuth2 client record named by the configuration does not
exist (and no pre-built client was supplied), a configuration error
(`ImproperlyConfigured`) is raised internally, but it never reaches the
caller: the fetch logs and returns the empty value, exactly as for any other
client-initialization failure. -/
theorem C8_missing_oauth_client_swallowed {υ α β : Type} (cfg : ApiConfig) (u : υ)
    (resource : String) (resource_id : Option String) (querystring : Option QS)
    (cache_key : Option String) (many : Bool) (C : Collab υ α β) (fuel : Nat)
    (hen : cfg.enabled = true)
    (hmiss : cacheLookup C cache_key resource_id = .ok none)
    (hdne : C.clientGet cfg.OAUTH2_CLIENT_NAME = .error .doesNotExist) :
    initClient cfg u (none : Option (ApiClient α β)) C
      = .error (.improperlyConfigured
          ("OAuth2 Client with name [" ++ cfg.OAUTH2_CLIENT_NAME ++ "] does not exist."))
    ∧ get_edx_api_data cfg u resource none resource_id querystring cache_key many C fuel
      = some ⟨.ok (noData α β many),
          cacheEvsOf (effCacheKey cache_key resource_id)
            ++ [.logException ("Failed to initialize the " ++ cfg.API_NAME
                  ++ " API client.")],
          querystring⟩ := by
  have hic : initClient cfg u (none : Option (ApiClient α β)) C
      = .error (.improperlyConfigured
          ("OAuth2 Client with name [" ++ cfg.OAUTH2_CLIENT_NAME
            ++ "] does not exist.")) := by
    simp [initClient, hdne]
  refine ⟨hic, ?_⟩
  unfold get_edx_api_data
  simp [hen, hmiss, hic]

/-- Collaborators whose OAuth2 client lookup raises `DoesNotExist`. -/
def dneCollab : Collab Unit Nat String :=
  { noCollab with clientGet := fun _ => .error .doesNotExist }

theorem C8_missing_oauth_client_swallowed_witness :
    initClient cfgOn () (none : Option (ApiClient Nat String)) dneCollab
      = .error (.improperlyConfigured
          ("OAuth2 Client with name [" ++ cfgOn.OAUTH2_CLIENT_NAME
            ++ "] does not exist."))
    ∧ get_edx_api_data cfgOn () "catalog" none none none none true dneCollab 9
      = some ⟨.ok (noData Nat String true),
          cacheEvsOf (effCacheKey none none)
            ++ [.logException ("Failed to initialize the " ++ cfgOn.API_NAME
                  ++ " API client.")],
          none⟩ :=
  C8_missing_oauth_client_swallowed cfgOn () "catalog" none none none true dneCollab 9
    rfl rfl rfl

/-- C7: with a resource id given, no cache hit and a successful request, the
fetch returns the single raw response and issues exactly one request — no
pagination traversal; and pagination happens exactly when the resource id is
absent: a fetch without one over an n-page chain issues n requests. -/
theorem C7_resource_id_skips_pagination :
    (∀ (υ α β : Type) (cfg : ApiConfig) (u : υ) (resource : String)
       (api : Option (ApiClient α β)) (apiC : ApiClient α β) (ep : EndpointObj α β)
       (rid : String) (querystring : Option QS) (cache_key : Option String)
       (many : Bool) (C : Collab υ α β) (fuel : Nat) (resp : Page α β),
      cfg.enabled = true → cacheLookup C cache_key (some rid) = .ok none →
      initClient cfg u api C = .ok apiC →
      apiC.endpoints resource = some ep →
      ep.call (some rid) (effQS querystring) = .ok resp →
      cacheWrite C (effCacheKey cache_key (some rid)) (.obj resp) cfg.cache_ttl
        = .ok () →
      ∃ o, get_edx_api_data cfg u resource api (some rid) querystring cache_key many
          C fuel = some o
        ∧ o.result = .ok (.obj resp)
        ∧ (o.events.filter Event.isRequest).length = 1)
    ∧ (∀ (υ α β : Type) (cfg : ApiConfig) (u : υ) (resource : String)
        (ps : List (Page α β)) (querystring : Option QS) (C : Collab υ α β)
        (fuel : Nat),
      cfg.enabled = true → ps ≠ [] → chainGood ps → ps.length - 1 ≤ fuel →
      ∃ o, get_edx_api_data cfg u resource (some (clientOf resource ps)) none
          querystring none true C fuel = some o
        ∧ (o.events.filter Event.isRequest).length = ps.length) := by
  constructor
  · intro υ α β cfg u resource api apiC ep rid querystring cache_key many C fuel resp
      hen hmiss hinit hep hcall hwrite
    have hreq : requestData apiC resource (some rid) (effQS querystring)
        (noData α β many) fuel
        = some (.ok (.obj resp), effQS querystring, [effQS querystring]) := by
      unfold requestData
      simp only [hep, hcall]
    refine ⟨⟨.ok (.obj resp),
        cacheEvsOf (effCacheKey cache_key (some rid))
          ++ [.request (effQS querystring)]
          ++ setEvsOf (effCacheKey cache_key (some rid)) (.obj resp) cfg.cache_ttl,
        finalCallerQs querystring (effQS querystring)⟩, ?_, rfl, ?_⟩
    · unfold get_edx_api_data
      simp [hen, hmiss, hinit, hreq, hwrite]
    · simp [List.filter_append, filter_isRequest_cacheEvsOf, filter_isRequest_setEvsOf,
        List.filter_cons, Event.isRequest]
  · intro υ α β cfg u resource ps querystring C fuel hen hne hch hf
    refine ⟨_, fetch_paginated_run cfg u resource ps querystring C fuel hen hne
      hch hf, ?_⟩
    rw [filter_isRequest_map_request]
    have hp : 0 < ps.length := List.length_pos.mpr hne
    simp only [List.length_map, List.length_cons, List.length_range]
    omega

/-- An endpoint whose single-resource call returns one object. -/
def epSingle : EndpointObj Nat String :=
  { call := fun _ _ => .ok ⟨some [9], none⟩
    get := fun _ => .error (.err 0) }

/-- A REST client exposing `epSingle` under the resource name `catalog`. -/
def apiSingle : ApiClient Nat String :=
  ⟨fun r => if r = "catalog" then some epSingle else none⟩

theorem C7_resource_id_skips_pagination_witness :
    (∃ o, get_edx_api_data cfgOn () "catalog" (some apiSingle) (some "42") none none
        true noCollab 0 = some o
      ∧ o.result = .ok (.obj ⟨some [9], none⟩)
      ∧ (o.events.filter Event.isRequest).length = 1)
    ∧ (∃ o, get_edx_api_data cfgOn () "catalog" (some (clientOf "catalog" pages3))
        none none none true noCollab 2 = some o
      ∧ (o.events.filter Event.isRequest).length = pages3.length) :=
  ⟨C7_resource_id_skips_pagination.1 Unit Nat String cfgOn () "catalog"
      (some apiSingle) apiSingle epSingle "42" none none true noCollab 0
      ⟨some [9], none⟩ rfl rfl rfl rfl rfl rfl,
   C7_resource_id_skips_pagination.2 Unit Nat String cfgOn () "catalog" pages3 none
      noCollab 2 rfl (by decide) (by decide) (by decide)⟩
